import Mathlib

/-!
# retcon-client-go: configuration registry accessors and one-shot connection

A shallow embedding of `retcon.go`.

* Go's `any` is the inductive `GoAny`, one constructor per dynamic type the
  accessors distinguish, plus `other` for every remaining dynamic type.
* A pointer `*T` is an `Option T` (`none` is the nil pointer).
* A runtime panic is an `Except.error` / `some` of `Panic`.
* The websocket library, `fmt` output and the `sync.WaitGroup` are effects:
  the transport's answers are the fields of `Transport`, and every effect the
  code performs is appended, in program order, to a trace of `Event`s.
-/

namespace RetconClient

/-! ## Runtime values -/

/-- Runtime panics raised by the Go runtime or the standard library in the modelled code. -/
inductive Panic where
  /-- A single-value type assertion `x.(T)` on a value whose dynamic type is not `T`. -/
  | interfaceConversion (dynType : String) (want : String)
  /-- An index expression out of range. -/
  | indexOutOfRange (index : Nat) (len : Nat)
  /-- The panic of `sync.WaitGroup.Add` when the counter drops below zero. -/
  | negativeWaitGroupCounter
  deriving DecidableEq, Repr

mutual
/-- The struct `ConfigProp` (retcon.go 20-27); `id` is a uint32 and `priority` a uint16. -/
inductive ConfigProp where
  | mk (id : Nat) (name : String) (priority : Nat) (kind : String) (nullable : Bool)
      (val : GoAny)
/-- A value of Go type `any`, tagged with its dynamic type. -/
inductive GoAny where
  /-- The nil interface value. -/
  | nilIface
  /-- Dynamic type `*bool`. -/
  | boolPtr (p : Option Bool)
  /-- Dynamic type `*string`. -/
  | stringPtr (p : Option String)
  /-- Dynamic type `*time.Time`; an instant is kept as its Unix nanoseconds. -/
  | timePtr (p : Option Int)
  /-- Dynamic type `*time.Duration` (an int64 count of nanoseconds). -/
  | durationPtr (p : Option Int)
  /-- Dynamic type `*json.Number` (a string type). -/
  | numberPtr (p : Option String)
  /-- Dynamic type `*any`. -/
  | anyPtr (p : Option GoAny)
  /-- Dynamic type `*[]any`. -/
  | slicePtr (p : Option (List GoAny))
  /-- Dynamic type `[]ConfigProp`; the nil slice is the empty list. -/
  | configProps (l : List ConfigProp)
  /-- Every other dynamic type, named by `dynType`. -/
  | other (dynType : String)
end

/-- Field `id` of a `ConfigProp`. -/
def ConfigProp.id : ConfigProp → Nat
  | .mk i _ _ _ _ _ => i

/-- Field `name` of a `ConfigProp`. -/
def ConfigProp.name : ConfigProp → String
  | .mk _ n _ _ _ _ => n

/-- Field `priority` of a `ConfigProp`. -/
def ConfigProp.priority : ConfigProp → Nat
  | .mk _ _ p _ _ _ => p

/-- Field `kind` of a `ConfigProp`. -/
def ConfigProp.kind : ConfigProp → String
  | .mk _ _ _ k _ _ => k

/-- Field `nullable` of a `ConfigProp`. -/
def ConfigProp.nullable : ConfigProp → Bool
  | .mk _ _ _ _ b _ => b

/-- Field `val` of a `ConfigProp`. -/
def ConfigProp.val : ConfigProp → GoAny
  | .mk _ _ _ _ _ v => v

/-- The name of the dynamic type, as the runtime prints it in a conversion panic. -/
def GoAny.typeName : GoAny → String
  | .nilIface => "nil"
  | .boolPtr _ => "*bool"
  | .stringPtr _ => "*string"
  | .timePtr _ => "*time.Time"
  | .durationPtr _ => "*time.Duration"
  | .numberPtr _ => "*json.Number"
  | .anyPtr _ => "*interface \x7b\x7d"
  | .slicePtr _ => "*[]interface \x7b\x7d"
  | .configProps _ => "[]main.ConfigProp"
  | .other t => t

/-- The comparison `v == nil` of an interface value. -/
def GoAny.isNil : GoAny → Bool
  | .nilIface => true
  | _ => false

/-- The comma-ok assertion `v.([]ConfigProp)`: the slice and `true`, or the nil slice and `false`. -/
def GoAny.assertConfigProps : GoAny → List ConfigProp × Bool
  | .configProps l => (l, true)
  | _ => ([], false)

/-- The single-value assertion `v.(*bool)`. -/
def GoAny.assertBoolPtr : GoAny → Except Panic (Option Bool)
  | .boolPtr p => .ok p
  | v => .error (.interfaceConversion v.typeName "*bool")

/-- The single-value assertion `v.(*string)`. -/
def GoAny.assertStringPtr : GoAny → Except Panic (Option String)
  | .stringPtr p => .ok p
  | v => .error (.interfaceConversion v.typeName "*string")

/-- The single-value assertion `v.(*time.Time)`. -/
def GoAny.assertTimePtr : GoAny → Except Panic (Option Int)
  | .timePtr p => .ok p
  | v => .error (.interfaceConversion v.typeName "*time.Time")

/-- The single-value assertion `v.(*time.Duration)`. -/
def GoAny.assertDurationPtr : GoAny → Except Panic (Option Int)
  | .durationPtr p => .ok p
  | v => .error (.interfaceConversion v.typeName "*time.Duration")

/-- The single-value assertion `v.(*json.Number)`. -/
def GoAny.assertNumberPtr : GoAny → Except Panic (Option String)
  | .numberPtr p => .ok p
  | v => .error (.interfaceConversion v.typeName "*json.Number")

/-- The single-value assertion `v.(*any)`. -/
def GoAny.assertAnyPtr : GoAny → Except Panic (Option GoAny)
  | .anyPtr p => .ok p
  | v => .error (.interfaceConversion v.typeName "*interface \x7b\x7d")

/-- The single-value assertion `v.(*[]any)`. -/
def GoAny.assertSlicePtr : GoAny → Except Panic (Option (List GoAny))
  | .slicePtr p => .ok p
  | v => .error (.interfaceConversion v.typeName "*[]interface \x7b\x7d")

/-- The index expression `s[i]` on a slice: the element, or the runtime's range panic. -/
def index (s : List ConfigProp) (i : Nat) : Except Panic ConfigProp :=
  match s.get? i with
  | some p => .ok p
  | none => .error (.indexOutOfRange i s.length)

/-! ## The registry -/

/-- A `sync.Map`, keyed by the strings the accessors look up; the first entry for a key is
the stored one. -/
structure SyncMap where
  entries : List (String × GoAny)

/-- The zero `sync.Map`: no entries. -/
def SyncMap.zero : SyncMap := ⟨[]⟩

/-- The method `(*sync.Map).Load`: the stored value and `true`, or nil and `false`. -/
def SyncMap.Load (m : SyncMap) (key : String) : GoAny × Bool :=
  match m.entries.lookup key with
  | some v => (v, true)
  | none => (.nilIface, false)

/-- The struct `Props` (retcon.go 29-37): one bucket per kind. -/
structure Props where
  objects : SyncMap
  slices : SyncMap
  strings : SyncMap
  booleans : SyncMap
  timestamps : SyncMap
  numbers : SyncMap
  durations : SyncMap

/-- The zero value of `Props`: seven empty buckets. -/
def Props.zero : Props :=
  ⟨SyncMap.zero, SyncMap.zero, SyncMap.zero, SyncMap.zero, SyncMap.zero, SyncMap.zero,
    SyncMap.zero⟩

/-- A `koanf.Koanf` instance, reduced to what `fromConfig` reads from it: the keys it
defines, each with the text `String` renders for it. -/
structure Koanf where
  entries : List (String × String)

/-- The zero `koanf.Koanf`. -/
def Koanf.zero : Koanf := ⟨[]⟩

/-- The method `(*Koanf).String` of the koanf library: the value at `path`, or the empty
string when the key is not defined. -/
def Koanf.str (ko : Koanf) (path : String) : String :=
  (ko.entries.lookup path).getD ""

/-- A `sync.WaitGroup`, reduced to its counter. -/
structure WaitGroup where
  counter : Int
  deriving DecidableEq, Repr

/-- The struct `Retcon` (retcon.go 39-46). The field `wg` is a pointer: `none` is nil and
`some a` points at the wait group allocated as number `a`. -/
structure Retcon where
  scheme : String
  host : String
  path : String
  config : Koanf
  props : Props
  wg : Option Nat

/-! ## Typed accessors (retcon.go 48-130) -/

/-- The method `getBoolean` (retcon.go 48-58). -/
def getBoolean (rc : Retcon) (name : String) : Except Panic (Option Bool) :=
  let (values, ok) := rc.props.booleans.Load name
  if !ok || values.isNil then .ok none
  else
    let (typedValues, typeOk) := values.assertConfigProps
    if !typeOk || typedValues.length == 0 then .ok none
    else (index typedValues 0).bind fun p => p.val.assertBoolPtr

/-- The method `getString` (retcon.go 60-70). -/
def getString (rc : Retcon) (name : String) : Except Panic (Option String) :=
  let (values, ok) := rc.props.strings.Load name
  if !ok then .ok none
  else
    let (typedValues, typeOk) := values.assertConfigProps
    if !typeOk || typedValues.length == 0 then .ok none
    else (index typedValues 0).bind fun p => p.val.assertStringPtr

/-- The method `getTimestamp` (retcon.go 72-82). -/
def getTimestamp (rc : Retcon) (name : String) : Except Panic (Option Int) :=
  let (values, ok) := rc.props.timestamps.Load name
  if !ok then .ok none
  else
    let (typedValues, typeOk) := values.assertConfigProps
    if !typeOk || typedValues.length == 0 then .ok none
    else (index typedValues 0).bind fun p => p.val.assertTimePtr

/-- The method `getDuration` (retcon.go 84-94). -/
def getDuration (rc : Retcon) (name : String) : Except Panic (Option Int) :=
  let (values, ok) := rc.props.durations.Load name
  if !ok then .ok none
  else
    let (typedValues, typeOk) := values.assertConfigProps
    if !typeOk || typedValues.length == 0 then .ok none
    else (index typedValues 0).bind fun p => p.val.assertDurationPtr

/-- The method `getNumber` (retcon.go 96-106). -/
def getNumber (rc : Retcon) (name : String) : Except Panic (Option String) :=
  let (values, ok) := rc.props.numbers.Load name
  if !ok then .ok none
  else
    let (typedValues, typeOk) := values.assertConfigProps
    if !typeOk || typedValues.length == 0 then .ok none
    else (index typedValues 0).bind fun p => p.val.assertNumberPtr

/-- The method `getObject` (retcon.go 108-118). -/
def getObject (rc : Retcon) (name : String) : Except Panic (Option GoAny) :=
  let (values, ok) := rc.props.objects.Load name
  if !ok then .ok none
  else
    let (typedValues, typeOk) := values.assertConfigProps
    if !typeOk || typedValues.length == 0 then .ok none
    else (index typedValues 0).bind fun p => p.val.assertAnyPtr

/-- The method `getSlice` (retcon.go 120-130). -/
def getSlice (rc : Retcon) (name : String) : Except Panic (Option (List GoAny)) :=
  let (values, ok) := rc.props.slices.Load name
  if !ok then .ok none
  else
    let (typedValues, typeOk) := values.assertConfigProps
    if !typeOk || typedValues.length == 0 then .ok none
    else (index typedValues 0).bind fun p => p.val.assertSlicePtr

/-! ## Environment key mapping (retcon.go 137-140) -/

/-- Go's `strings.ToUpper`, on the ASCII letters. -/
def strings.ToUpper (s : String) : String := ⟨s.data.map Char.toUpper⟩

/-- Go's `strings.ToLower`, on the ASCII letters. -/
def strings.ToLower (s : String) : String := ⟨s.data.map Char.toLower⟩

/-- Go's `strings.TrimPrefix`: `s` without the leading `pre` when it starts with it, else `s`. -/
def strings.TrimPrefix (s pre : String) : String :=
  if pre.data.isPrefixOf s.data then ⟨s.data.drop pre.data.length⟩ else s

/-- Go's `strings.Replace (s, old, new, -1)` for one-character `old` and `new`: every
occurrence is replaced. -/
def strings.ReplaceChar (s : String) (old new : Char) : String :=
  ⟨s.data.map fun c => if c = old then new else c⟩

/-- The function literal that `fromName` hands to `env.Provider` (retcon.go 137-140); `name`
is the variable of `fromName` it closes over and `s` the environment variable name. -/
def fromName.func1 (name : String) (s : String) : String :=
  strings.ReplaceChar (strings.ToLower (strings.TrimPrefix s (strings.ToUpper name))) '_' '.'

/-! ## The connection (retcon.go 144-189) -/

/-- A `ws.OpCode` (a byte). -/
abbrev OpCode := Nat

/-- The constant `ws.OpText`. -/
def OpText : OpCode := 1

/-- What the websocket library answers during one run. An error is kept as the text `%v`
prints for it; `none` is the nil error. -/
structure Transport where
  /-- Answer of `ws.DefaultDialer.Dial` for a URL. -/
  dial : String → Option String
  /-- Answer of `wsutil.WriteClientMessage` for an opcode and a payload. -/
  write : OpCode → String → Option String
  /-- Answer of `wsutil.ReadServerData`: the payload and its opcode, or an error. -/
  read : Except String (String × OpCode)
  /-- Answer of `conn.Close`. -/
  close : Option String
  /-- The text `%v` prints for an opcode. -/
  showOp : OpCode → String

/-- One observable effect of the connection code. -/
inductive Event where
  /-- A call of `ws.DefaultDialer.Dial` with this URL. -/
  | dial (url : String)
  /-- A call of `wsutil.WriteClientMessage` with this opcode and payload. -/
  | write (op : OpCode) (payload : String)
  /-- A call of `wsutil.ReadServerData`. -/
  | read
  /-- A call of `conn.Close`. -/
  | close
  /-- Text written to standard output by one `fmt.Printf` or `fmt.Println` call. -/
  | print (line : String)
  /-- A call of `wg.Done`. -/
  | wgDone
  /-- The statement `go retcon.wg.Wait()`. -/
  | goWait
  deriving DecidableEq, Repr

/-- The method `(*sync.WaitGroup).Done`, that is `Add(-1)`: the counter is decremented, and
a counter below zero panics. -/
def WaitGroup.Done (wg : WaitGroup) : WaitGroup × Option Panic :=
  let v := wg.counter - 1
  (⟨v⟩, if v < 0 then some .negativeWaitGroupCounter else none)

/-- The state a call leaves behind: the effects in program order, the wait group, and the
panic the call ended with, if any. -/
structure Exec where
  trace : List Event
  wg : WaitGroup
  panic : Option Panic

/-- The function `configureClient` (retcon.go 158-189). The deferred `wg.Done()` is
registered right after the dial and runs when the body is left, on every path. -/
def configureClient (wg : WaitGroup) (retcon : Retcon) (t : Transport) : Exec :=
  let url := retcon.scheme ++ "://" ++ retcon.host ++ retcon.path
  let body : List Event :=
    match t.dial url with
    | some err => [.print ("can not connect: " ++ err ++ "\n")]
    | none =>
      let msg := "OK+OK"
      Event.print "connected\n" :: Event.write OpText msg ::
        match t.write OpText msg with
        | some err => [.print ("can not send: " ++ err ++ "\n")]
        | none =>
          Event.print ("send: " ++ msg ++ ", type: " ++ t.showOp OpText ++ "\n") :: Event.read ::
            match t.read with
            | .error err => [.print ("can not receive: " ++ err ++ "\n")]
            | .ok (msg, op) =>
              Event.print ("receive: " ++ msg ++ "ï¼Œtype: " ++ t.showOp op ++ "\n") ::
                Event.close ::
                match t.close with
                | some err => [.print ("can not close: " ++ err ++ "\n")]
                | none => [.print "closed\n"]
  let done := wg.Done
  { trace := Event.dial url :: body ++ [Event.wgDone], wg := done.1, panic := done.2 }

/-- The state `fromConfig` leaves behind: the local `retcon` it built, the effects, the
local wait group, and the panic it ended with (`none`: it returned `&retcon`). -/
structure FromConfigExec where
  retcon : Retcon
  trace : List Event
  wg : WaitGroup
  panic : Option Panic

/-- The function `fromConfig` (retcon.go 144-156). -/
def fromConfig (config : Koanf) (t : Transport) : FromConfigExec :=
  let wg : WaitGroup := ⟨0⟩
  let retcon : Retcon :=
    { scheme := "ws"
      host := config.str "host"
      path := "/ws/" ++ config.str "appId"
      config := Koanf.zero
      props := Props.zero
      wg := some 0 }
  let r := configureClient wg retcon t
  match r.panic with
  | some p => { retcon := retcon, trace := r.trace, wg := r.wg, panic := some p }
  | none => { retcon := retcon, trace := r.trace ++ [Event.goWait], wg := r.wg, panic := none }

/-! ## Projections of a trace -/

/-- The text written to standard output, one entry per print call. -/
def logs : List Event → List String
  | [] => []
  | .print l :: es => l :: logs es
  | _ :: es => logs es

/-- The calls made to the websocket library. -/
def transportOps : List Event → List Event
  | [] => []
  | .print _ :: es => transportOps es
  | .wgDone :: es => transportOps es
  | .goWait :: es => transportOps es
  | e :: es => e :: transportOps es

/-- The number of `wg.Done` calls. -/
def doneCalls : List Event → Nat
  | [] => 0
  | .wgDone :: es => doneCalls es + 1
  | _ :: es => doneCalls es

/-- The URLs dialled. -/
def dialled : List Event → List String
  | [] => []
  | .dial u :: es => u :: dialled es
  | _ :: es => dialled es

/-! ## Specification predicates -/

/-- The lookup shared by the seven accessors, as a function of what `Load` returned: absent
unless the stored value is a non-empty `[]ConfigProp`, whose first `val` is then asserted. -/
def firstOf {α : Type} (assert : GoAny → Except Panic (Option α)) (r : GoAny × Bool) :
    Except Panic (Option α) :=
  match r with
  | (.configProps (p :: _), true) => assert p.val
  | _ => .ok none

/-- Contract of one accessor `get` reading `bucket`, where `wrap v` is the pointer `v` as a
value of the accessor's kind: the first element's value when the name holds a non-empty
sequence whose first element is of that kind; absent when the name has no entry; absent when
the stored sequence is empty. -/
def ReturnsFirst {α : Type} (get : Retcon → String → Except Panic (Option α))
    (bucket : Props → SyncMap) (wrap : Option α → GoAny) : Prop :=
  ∀ (rc : Retcon) (name : String),
    (∀ (p : ConfigProp) (rest : List ConfigProp) (v : Option α),
      (bucket rc.props).Load name = (GoAny.configProps (p :: rest), true) →
      p.val = wrap v → get rc name = .ok v) ∧
    (((bucket rc.props).Load name).2 = false → get rc name = .ok none) ∧
    ((bucket rc.props).Load name = (GoAny.configProps [], true) → get rc name = .ok none)

/-- Priority contract of one accessor: when the stored sequence is in strictly descending
priority order, the value of the entry of maximal priority is returned; in any order, the
value of the first entry is. -/
def ReturnsMaxWhenSorted {α : Type} (get : Retcon → String → Except Panic (Option α))
    (bucket : Props → SyncMap) (wrap : Option α → GoAny) : Prop :=
  ∀ (rc : Retcon) (name : String) (l : List ConfigProp),
    (bucket rc.props).Load name = (GoAny.configProps l, true) →
    (∀ (m : ConfigProp) (v : Option α),
      l.Pairwise (fun a b => a.priority > b.priority) →
      m ∈ l → (∀ q ∈ l, q.priority ≤ m.priority) → m.val = wrap v → get rc name = .ok v) ∧
    (∀ (p : ConfigProp) (rest : List ConfigProp) (v : Option α),
      l = p :: rest → p.val = wrap v → get rc name = .ok v)

/-- Mismatch contract of one accessor whose asserted type is named `want`: a non-empty
stored `[]ConfigProp` whose first `val` is not of the accessor's kind makes it panic; a stored
value that is not a `[]ConfigProp` makes it return absent. -/
def PanicsOnWrongFirstVal {α : Type} (get : Retcon → String → Except Panic (Option α))
    (bucket : Props → SyncMap) (wrap : Option α → GoAny) (want : String) : Prop :=
  ∀ (rc : Retcon) (name : String),
    (∀ (p : ConfigProp) (rest : List ConfigProp),
      (bucket rc.props).Load name = (GoAny.configProps (p :: rest), true) →
      (∀ v, p.val ≠ wrap v) →
      get rc name = .error (.interfaceConversion p.val.typeName want)) ∧
    (∀ (x : GoAny), (bucket rc.props).Load name = (x, true) →
      (∀ l, x ≠ GoAny.configProps l) → get rc name = .ok none)

/-! ## Concrete inputs -/

/-- A `Retcon` holding the given registry and nothing else. -/
def rcWith (ps : Props) : Retcon :=
  { scheme := "ws", host := "", path := "/ws/", config := Koanf.zero, props := ps, wg := none }

/-- A string entry named `k` with the given priority and value. -/
def stringProp (id priority : Nat) (v : String) : ConfigProp :=
  .mk id "k" priority "string" false (.stringPtr (some v))

/-- String bucket: `k` holds a priority-1 entry before a priority-2 entry. -/
def propsLowFirst : Props :=
  { Props.zero with
    strings := ⟨[("k", .configProps [stringProp 1 1 "low", stringProp 2 2 "high"])]⟩ }

/-- String bucket: the same two entries, priority 2 first. -/
def propsHighFirst : Props :=
  { Props.zero with
    strings := ⟨[("k", .configProps [stringProp 2 2 "high", stringProp 1 1 "low"])]⟩ }

/-- String bucket: `k` holds an `int`, not a `[]ConfigProp`. -/
def propsNotSlice : Props :=
  { Props.zero with strings := ⟨[("k", .other "int")]⟩ }

/-- String bucket: `k` holds a sequence whose first `val` is a `*bool`. -/
def propsWrongKind : Props :=
  { Props.zero with
    strings := ⟨[("k", .configProps [.mk 1 "k" 1 "string" false (.boolPtr (some true))])]⟩ }

/-- A configuration defining `host` and `appId`. -/
def cfgExample : Koanf := ⟨[("host", "example.com"), ("appId", "42")]⟩

/-- A transport on which everything succeeds and the server answers `PONG` as text. -/
def tPong : Transport :=
  { dial := fun _ => none
    write := fun _ _ => none
    read := .ok ("PONG", 1)
    close := none
    showOp := fun n => toString n }

/-- A transport whose dial fails. -/
def tDialFails : Transport := { tPong with dial := fun _ => some "dial tcp: refused" }

/-- A transport whose write fails. -/
def tWriteFails : Transport := { tPong with write := fun _ _ => some "broken pipe" }

/-- A transport whose read fails. -/
def tReadFails : Transport := { tPong with read := .error "EOF" }

/-- A transport whose close fails. -/
def tCloseFails : Transport := { tPong with close := some "already closed" }

/-! ## Accessor lemmas -/

theorem getBoolean_eq (rc : Retcon) (name : String) :
    getBoolean rc name = firstOf GoAny.assertBoolPtr (rc.props.booleans.Load name) := by
  unfold getBoolean firstOf
  rcases rc.props.booleans.Load name with ⟨v, ok⟩
  cases ok <;> cases v <;> first | rfl | (rename_i l; cases l <;> rfl)

theorem getString_eq (rc : Retcon) (name : String) :
    getString rc name = firstOf GoAny.assertStringPtr (rc.props.strings.Load name) := by
  unfold getString firstOf
  rcases rc.props.strings.Load name with ⟨v, ok⟩
  cases ok <;> cases v <;> first | rfl | (rename_i l; cases l <;> rfl)

theorem getTimestamp_eq (rc : Retcon) (name : String) :
    getTimestamp rc name = firstOf GoAny.assertTimePtr (rc.props.timestamps.Load name) := by
  unfold getTimestamp firstOf
  rcases rc.props.timestamps.Load name with ⟨v, ok⟩
  cases ok <;> cases v <;> first | rfl | (rename_i l; cases l <;> rfl)

theorem getDuration_eq (rc : Retcon) (name : String) :
    getDuration rc name = firstOf GoAny.assertDurationPtr (rc.props.durations.Load name) := by
  unfold getDuration firstOf
  rcases rc.props.durations.Load name with ⟨v, ok⟩
  cases ok <;> cases v <;> first | rfl | (rename_i l; cases l <;> rfl)

theorem getNumber_eq (rc : Retcon) (name : String) :
    getNumber rc name = firstOf GoAny.assertNumberPtr (rc.props.numbers.Load name) := by
  unfold getNumber firstOf
  rcases rc.props.numbers.Load name with ⟨v, ok⟩
  cases ok <;> cases v <;> first | rfl | (rename_i l; cases l <;> rfl)

theorem getObject_eq (rc : Retcon) (name : String) :
    getObject rc name = firstOf GoAny.assertAnyPtr (rc.props.objects.Load name) := by
  unfold getObject firstOf
  rcases rc.props.objects.Load name with ⟨v, ok⟩
  cases ok <;> cases v <;> first | rfl | (rename_i l; cases l <;> rfl)

theorem getSlice_eq (rc : Retcon) (name : String) :
    getSlice rc name = firstOf GoAny.assertSlicePtr (rc.props.slices.Load name) := by
  unfold getSlice firstOf
  rcases rc.props.slices.Load name with ⟨v, ok⟩
  cases ok <;> cases v <;> first | rfl | (rename_i l; cases l <;> rfl)

theorem firstOf_absent {α : Type} (assert : GoAny → Except Panic (Option α)) (x : GoAny) :
    firstOf assert (x, false) = .ok none := by
  cases x <;> first | rfl | (rename_i l; cases l <;> rfl)

theorem firstOf_not_props {α : Type} (assert : GoAny → Except Panic (Option α)) (x : GoAny)
    (ok : Bool) (hx : ∀ l, x ≠ GoAny.configProps l) : firstOf assert (x, ok) = .ok none := by
  cases x <;> cases ok <;> first | rfl | exact absurd rfl (hx _)

theorem returnsFirst_of_eq {α : Type} {get : Retcon → String → Except Panic (Option α)}
    {bucket : Props → SyncMap} {wrap : Option α → GoAny}
    {assert : GoAny → Except Panic (Option α)}
    (hget : ∀ rc name, get rc name = firstOf assert ((bucket rc.props).Load name))
    (hassert : ∀ v, assert (wrap v) = .ok v) : ReturnsFirst get bucket wrap := by
  intro rc name
  refine ⟨?_, ?_, ?_⟩
  · intro p rest v hload hval
    rw [hget, hload]
    show assert p.val = _
    rw [hval, hassert]
  · intro habsent
    rw [hget]
    rcases hl : (bucket rc.props).Load name with ⟨x, ok⟩
    rw [hl] at habsent
    simp only at habsent
    subst habsent
    exact firstOf_absent assert x
  · intro hload
    rw [hget, hload]
    rfl

theorem head_of_descending (p : ConfigProp) (rest : List ConfigProp) (m : ConfigProp)
    (hsorted : (p :: rest).Pairwise (fun a b => a.priority > b.priority))
    (hm : m ∈ p :: rest) (hmax : ∀ q ∈ p :: rest, q.priority ≤ m.priority) : m = p := by
  rcases List.mem_cons.mp hm with h | h
  · exact h
  · have h1 : p.priority > m.priority := (List.pairwise_cons.mp hsorted).1 m h
    have h2 : p.priority ≤ m.priority := hmax p (List.mem_cons_self p rest)
    omega

theorem returnsMax_of_eq {α : Type} {get : Retcon → String → Except Panic (Option α)}
    {bucket : Props → SyncMap} {wrap : Option α → GoAny}
    {assert : GoAny → Except Panic (Option α)}
    (hget : ∀ rc name, get rc name = firstOf assert ((bucket rc.props).Load name))
    (hassert : ∀ v, assert (wrap v) = .ok v) : ReturnsMaxWhenSorted get bucket wrap := by
  intro rc name l hload
  refine ⟨?_, ?_⟩
  · intro m v hsorted hm hmax hval
    cases l with
    | nil => cases hm
    | cons p rest =>
      have hmp : m = p := head_of_descending p rest m hsorted hm hmax
      subst hmp
      rw [hget, hload]
      show assert m.val = _
      rw [hval, hassert]
  · intro p rest v hl hval
    subst hl
    rw [hget, hload]
    show assert p.val = _
    rw [hval, hassert]

theorem panicsOnWrong_of_eq {α : Type} {get : Retcon → String → Except Panic (Option α)}
    {bucket : Props → SyncMap} {wrap : Option α → GoAny} {want : String}
    {assert : GoAny → Except Panic (Option α)}
    (hget : ∀ rc name, get rc name = firstOf assert ((bucket rc.props).Load name))
    (hmis : ∀ x, (∀ v, x ≠ wrap v) → assert x = .error (.interfaceConversion x.typeName want)) :
    PanicsOnWrongFirstVal get bucket wrap want := by
  intro rc name
  refine ⟨?_, ?_⟩
  · intro p rest hload hne
    rw [hget, hload]
    exact hmis p.val hne
  · intro x hload hx
    rw [hget, hload]
    exact firstOf_not_props assert x true hx

theorem assertBoolPtr_mismatch (x : GoAny) (h : ∀ v, x ≠ GoAny.boolPtr v) :
    x.assertBoolPtr = .error (.interfaceConversion x.typeName "*bool") := by
  cases x <;> first | rfl | exact absurd rfl (h _)

theorem assertStringPtr_mismatch (x : GoAny) (h : ∀ v, x ≠ GoAny.stringPtr v) :
    x.assertStringPtr = .error (.interfaceConversion x.typeName "*string") := by
  cases x <;> first | rfl | exact absurd rfl (h _)

theorem assertTimePtr_mismatch (x : GoAny) (h : ∀ v, x ≠ GoAny.timePtr v) :
    x.assertTimePtr = .error (.interfaceConversion x.typeName "*time.Time") := by
  cases x <;> first | rfl | exact absurd rfl (h _)

theorem assertDurationPtr_mismatch (x : GoAny) (h : ∀ v, x ≠ GoAny.durationPtr v) :
    x.assertDurationPtr = .error (.interfaceConversion x.typeName "*time.Duration") := by
  cases x <;> first | rfl | exact absurd rfl (h _)

theorem assertNumberPtr_mismatch (x : GoAny) (h : ∀ v, x ≠ GoAny.numberPtr v) :
    x.assertNumberPtr = .error (.interfaceConversion x.typeName "*json.Number") := by
  cases x <;> first | rfl | exact absurd rfl (h _)

theorem assertAnyPtr_mismatch (x : GoAny) (h : ∀ v, x ≠ GoAny.anyPtr v) :
    x.assertAnyPtr = .error (.interfaceConversion x.typeName "*interface \x7b\x7d") := by
  cases x <;> first | rfl | exact absurd rfl (h _)

theorem assertSlicePtr_mismatch (x : GoAny) (h : ∀ v, x ≠ GoAny.slicePtr v) :
    x.assertSlicePtr = .error (.interfaceConversion x.typeName "*[]interface \x7b\x7d") := by
  cases x <;> first | rfl | exact absurd rfl (h _)

/-! ## Connection lemmas -/

theorem configureClient_dial_fails (wg : WaitGroup) (rc : Retcon) (t : Transport) (e : String)
    (hd : t.dial (rc.scheme ++ "://" ++ rc.host ++ rc.path) = some e) :
    (configureClient wg rc t).trace =
      [.dial (rc.scheme ++ "://" ++ rc.host ++ rc.path),
        .print ("can not connect: " ++ e ++ "\n"), .wgDone] := by
  simp [configureClient, hd]

theorem configureClient_write_fails (wg : WaitGroup) (rc : Retcon) (t : Transport) (e : String)
    (hd : t.dial (rc.scheme ++ "://" ++ rc.host ++ rc.path) = none)
    (hw : t.write OpText "OK+OK" = some e) :
    (configureClient wg rc t).trace =
      [.dial (rc.scheme ++ "://" ++ rc.host ++ rc.path), .print "connected\n",
        .write OpText "OK+OK", .print ("can not send: " ++ e ++ "\n"), .wgDone] := by
  simp [configureClient, hd, hw]

theorem configureClient_read_fails (wg : WaitGroup) (rc : Retcon) (t : Transport) (e : String)
    (hd : t.dial (rc.scheme ++ "://" ++ rc.host ++ rc.path) = none)
    (hw : t.write OpText "OK+OK" = none) (hr : t.read = .error e) :
    (configureClient wg rc t).trace =
      [.dial (rc.scheme ++ "://" ++ rc.host ++ rc.path), .print "connected\n",
        .write OpText "OK+OK", .print ("send: OK+OK, type: " ++ t.showOp OpText ++ "\n"),
        .read, .print ("can not receive: " ++ e ++ "\n"), .wgDone] := by
  simp [configureClient, hd, hw, hr]

theorem configureClient_read_ok (wg : WaitGroup) (rc : Retcon) (t : Transport)
    (msg : String) (op : OpCode)
    (hd : t.dial (rc.scheme ++ "://" ++ rc.host ++ rc.path) = none)
    (hw : t.write OpText "OK+OK" = none) (hr : t.read = .ok (msg, op)) :
    (configureClient wg rc t).trace =
      [.dial (rc.scheme ++ "://" ++ rc.host ++ rc.path), .print "connected\n",
        .write OpText "OK+OK", .print ("send: OK+OK, type: " ++ t.showOp OpText ++ "\n"),
        .read, .print ("receive: " ++ msg ++ "ï¼Œtype: " ++ t.showOp op ++ "\n"), .close,
        .print (match t.close with
          | some err => "can not close: " ++ err ++ "\n"
          | none => "closed\n"),
        .wgDone] := by
  cases hc : t.close <;> simp [configureClient, hd, hw, hr, hc]

theorem configureClient_summary (wg : WaitGroup) (rc : Retcon) (t : Transport) :
    doneCalls (configureClient wg rc t).trace = 1 ∧
      dialled (configureClient wg rc t).trace = [rc.scheme ++ "://" ++ rc.host ++ rc.path] ∧
      (configureClient wg rc t).trace.getLast? = some Event.wgDone := by
  cases hd : t.dial (rc.scheme ++ "://" ++ rc.host ++ rc.path) with
  | some e => rw [configureClient_dial_fails wg rc t e hd]; exact ⟨rfl, rfl, rfl⟩
  | none =>
    cases hw : t.write OpText "OK+OK" with
    | some e => rw [configureClient_write_fails wg rc t e hd hw]; exact ⟨rfl, rfl, rfl⟩
    | none =>
      cases hr : t.read with
      | error e => rw [configureClient_read_fails wg rc t e hd hw hr]; exact ⟨rfl, rfl, rfl⟩
      | ok r =>
        obtain ⟨msg, op⟩ := r
        rw [configureClient_read_ok wg rc t msg op hd hw hr]; exact ⟨rfl, rfl, rfl⟩

theorem fromConfig_eq (config : Koanf) (t : Transport) :
    fromConfig config t =
      { retcon :=
          { scheme := "ws", host := config.str "host", path := "/ws/" ++ config.str "appId",
            config := Koanf.zero, props := Props.zero, wg := some 0 }
        trace :=
          (configureClient ⟨0⟩
            { scheme := "ws", host := config.str "host", path := "/ws/" ++ config.str "appId",
              config := Koanf.zero, props := Props.zero, wg := some 0 } t).trace
        wg := ⟨-1⟩
        panic := some .negativeWaitGroupCounter } := rfl

theorem derived_target (h a : String) :
    "ws" ++ "://" ++ h ++ ("/ws/" ++ a) = "ws://" ++ h ++ "/ws/" ++ a := by
  have e : "ws" ++ "://" = "ws://" := by decide
  rw [e]
  simp only [String.append_assoc]

theorem fromConfig_dialled (config : Koanf) (t : Transport) :
    dialled (fromConfig config t).trace =
      ["ws://" ++ config.str "host" ++ "/ws/" ++ config.str "appId"] := by
  rw [fromConfig_eq]
  exact ((configureClient_summary ⟨0⟩ _ t).2.1).trans
    (congrArg (fun u => [u]) (derived_target (config.str "host") (config.str "appId")))

/-! ## Claims -/

/-- C1: `fromConfig` builds a `Retcon` with scheme `ws`, the configured host and path
`/ws/` followed by the configured application id; `configureClient` dials exactly once, the
URL scheme, `://`, host, path, so `fromConfig` dials `ws://<host>/ws/<appId>`; `host`
`example.com` with `appId` `42` gives `ws://example.com/ws/42`; absent keys read as empty
strings and the dial is reached with `ws:///ws/`. -/
theorem fromConfig_dials_derived_target (config : Koanf) (t : Transport) :
    (fromConfig config t).retcon.scheme = "ws" ∧
    (fromConfig config t).retcon.host = config.str "host" ∧
    (fromConfig config t).retcon.path = "/ws/" ++ config.str "appId" ∧
    (∀ (wg : WaitGroup) (rc : Retcon),
      dialled (configureClient wg rc t).trace = [rc.scheme ++ "://" ++ rc.host ++ rc.path]) ∧
    dialled (fromConfig config t).trace =
      ["ws://" ++ config.str "host" ++ "/ws/" ++ config.str "appId"] ∧
    dialled (fromConfig cfgExample t).trace = ["ws://example.com/ws/42"] ∧
    (config.entries.lookup "host" = none → config.entries.lookup "appId" = none →
      config.str "host" = "" ∧ config.str "appId" = "" ∧
      dialled (fromConfig config t).trace = ["ws:///ws/"]) := by
  refine ⟨rfl, rfl, rfl, fun wg rc => (configureClient_summary wg rc t).2.1,
    fromConfig_dialled config t, ?_, ?_⟩
  · rw [fromConfig_dialled]
    decide
  · intro hh ha
    have h1 : config.str "host" = "" := by simp [Koanf.str, hh]
    have h2 : config.str "appId" = "" := by simp [Koanf.str, ha]
    refine ⟨h1, h2, ?_⟩
    rw [fromConfig_dialled, h1, h2]
    decide

/-- Witness of C1 at a configuration that defines neither `host` nor `appId`, on a
transport whose dial fails. -/
theorem fromConfig_dials_derived_target_witness :
    dialled (fromConfig ⟨[("port", "80")]⟩ tDialFails).trace = ["ws:///ws/"] :=
  ((fromConfig_dials_derived_target ⟨[("port", "80")]⟩ tDialFails).2.2.2.2.2.2 rfl rfl).2.2

/-- C2: each of the seven typed accessors returns the value of the first element when its
bucket holds, for the name, a non-empty sequence whose first element carries a value of the
accessor's kind, and returns absent, without a panic, when the name has no entry or the
stored sequence is empty. -/
theorem accessors_return_first :
    ReturnsFirst getBoolean Props.booleans GoAny.boolPtr ∧
    ReturnsFirst getString Props.strings GoAny.stringPtr ∧
    ReturnsFirst getTimestamp Props.timestamps GoAny.timePtr ∧
    ReturnsFirst getDuration Props.durations GoAny.durationPtr ∧
    ReturnsFirst getNumber Props.numbers GoAny.numberPtr ∧
    ReturnsFirst getObject Props.objects GoAny.anyPtr ∧
    ReturnsFirst getSlice Props.slices GoAny.slicePtr :=
  ⟨returnsFirst_of_eq getBoolean_eq fun _ => rfl,
    returnsFirst_of_eq getString_eq fun _ => rfl,
    returnsFirst_of_eq getTimestamp_eq fun _ => rfl,
    returnsFirst_of_eq getDuration_eq fun _ => rfl,
    returnsFirst_of_eq getNumber_eq fun _ => rfl,
    returnsFirst_of_eq getObject_eq fun _ => rfl,
    returnsFirst_of_eq getSlice_eq fun _ => rfl⟩

/-- Witness of C2 on the string bucket: a stored sequence, a missing name, and on the
boolean bucket a missing name. -/
theorem accessors_return_first_witness :
    getString (rcWith propsHighFirst) "k" = .ok (some "high") ∧
    getString (rcWith propsHighFirst) "missing" = .ok none ∧
    getBoolean (rcWith propsHighFirst) "k" = .ok none :=
  ⟨(accessors_return_first.2.1 (rcWith propsHighFirst) "k").1
      (stringProp 2 2 "high") [stringProp 1 1 "low"] (some "high") rfl rfl,
    (accessors_return_first.2.1 (rcWith propsHighFirst) "missing").2.1 rfl,
    (accessors_return_first.1 (rcWith propsHighFirst) "k").2.1 rfl⟩

/-- C3 as stated fails: under `k` the string bucket holds a priority-1 entry `low` before a
priority-2 entry `high`; `getString` returns `low`, not the value of the entry of maximal
priority, and the same two entries stored in the other order give `high`. -/
theorem getString_ignores_priority :
    (Props.strings propsLowFirst).Load "k" =
      (GoAny.configProps [stringProp 1 1 "low", stringProp 2 2 "high"], true) ∧
    (stringProp 1 1 "low").priority < (stringProp 2 2 "high").priority ∧
    (stringProp 2 2 "high").val = GoAny.stringPtr (some "high") ∧
    getString (rcWith propsLowFirst) "k" = .ok (some "low") ∧
    getString (rcWith propsLowFirst) "k" ≠ .ok (some "high") ∧
    getString (rcWith propsHighFirst) "k" = .ok (some "high") := by
  refine ⟨rfl, by decide, rfl, rfl, ?_, rfl⟩
  rw [show getString (rcWith propsLowFirst) "k" = .ok (some "low") from rfl]
  intro h
  have h2 : "low" = "high" := Option.some.inj (Except.ok.inj h)
  exact absurd h2 (by decide)

/-- C3, amended: for each of the seven accessors, when the sequence stored under a name is
in strictly descending priority order (most authoritative first), the accessor returns the
value of the entry whose priority is maximal; whatever the order, it returns the value of the
first entry. -/
theorem accessors_return_max_when_sorted :
    ReturnsMaxWhenSorted getBoolean Props.booleans GoAny.boolPtr ∧
    ReturnsMaxWhenSorted getString Props.strings GoAny.stringPtr ∧
    ReturnsMaxWhenSorted getTimestamp Props.timestamps GoAny.timePtr ∧
    ReturnsMaxWhenSorted getDuration Props.durations GoAny.durationPtr ∧
    ReturnsMaxWhenSorted getNumber Props.numbers GoAny.numberPtr ∧
    ReturnsMaxWhenSorted getObject Props.objects GoAny.anyPtr ∧
    ReturnsMaxWhenSorted getSlice Props.slices GoAny.slicePtr :=
  ⟨returnsMax_of_eq getBoolean_eq fun _ => rfl,
    returnsMax_of_eq getString_eq fun _ => rfl,
    returnsMax_of_eq getTimestamp_eq fun _ => rfl,
    returnsMax_of_eq getDuration_eq fun _ => rfl,
    returnsMax_of_eq getNumber_eq fun _ => rfl,
    returnsMax_of_eq getObject_eq fun _ => rfl,
    returnsMax_of_eq getSlice_eq fun _ => rfl⟩

/-- Witness of the amended C3: with the priority-2 entry stored first, `getString` returns
the value of the entry of maximal priority. -/
theorem accessors_return_max_when_sorted_witness :
    getString (rcWith propsHighFirst) "k" = .ok (some "high") :=
  (accessors_return_max_when_sorted.2.1 (rcWith propsHighFirst) "k"
      [stringProp 2 2 "high", stringProp 1 1 "low"] rfl).1
    (stringProp 2 2 "high") (some "high") (by decide) (List.mem_cons_self _ _)
    (by decide) rfl

/-- C4 fails on the code: for base name `test` the key-mapping function turns `TEST_HOST`
into `.host` and `TEST_A_B` into `.a.b`; the underscore after the prefix is kept and becomes
a leading dot, so the key is not `host`. -/
theorem envKey_keeps_separator :
    fromName.func1 "test" "TEST_HOST" = ".host" ∧
    fromName.func1 "test" "TEST_A_B" = ".a.b" ∧
    fromName.func1 "test" "TEST_HOST" ≠ "host" := by
  decide

/-- C5: whatever the transport answers, one call of `configureClient` calls `wg.Done`
exactly once, as its last effect, and leaves the counter one below its value at entry. -/
theorem configureClient_done_once (wg : WaitGroup) (rc : Retcon) (t : Transport) :
    doneCalls (configureClient wg rc t).trace = 1 ∧
    (configureClient wg rc t).trace.getLast? = some Event.wgDone ∧
    (configureClient wg rc t).wg.counter = wg.counter - 1 :=
  ⟨(configureClient_summary wg rc t).1, (configureClient_summary wg rc t).2.2, rfl⟩

/-- C6: failure is terminal. If the dial fails, the only output is one `can not connect`
line and no write, read or close is made; if the write fails, the output is `connected` then
one `can not send` line and no read or close is made; if the read fails, one
`can not receive` line follows the send confirmation and no close is made. In every case
the dial is made exactly once. -/
theorem failure_is_terminal (wg : WaitGroup) (rc : Retcon) (t : Transport) :
    (∀ e, t.dial (rc.scheme ++ "://" ++ rc.host ++ rc.path) = some e →
      logs (configureClient wg rc t).trace = ["can not connect: " ++ e ++ "\n"] ∧
      transportOps (configureClient wg rc t).trace =
        [.dial (rc.scheme ++ "://" ++ rc.host ++ rc.path)]) ∧
    (∀ e, t.dial (rc.scheme ++ "://" ++ rc.host ++ rc.path) = none →
      t.write OpText "OK+OK" = some e →
      logs (configureClient wg rc t).trace = ["connected\n", "can not send: " ++ e ++ "\n"] ∧
      transportOps (configureClient wg rc t).trace =
        [.dial (rc.scheme ++ "://" ++ rc.host ++ rc.path), .write OpText "OK+OK"]) ∧
    (∀ e, t.dial (rc.scheme ++ "://" ++ rc.host ++ rc.path) = none →
      t.write OpText "OK+OK" = none → t.read = .error e →
      logs (configureClient wg rc t).trace =
        ["connected\n", "send: OK+OK, type: " ++ t.showOp OpText ++ "\n",
          "can not receive: " ++ e ++ "\n"] ∧
      transportOps (configureClient wg rc t).trace =
        [.dial (rc.scheme ++ "://" ++ rc.host ++ rc.path), .write OpText "OK+OK", .read]) ∧
    dialled (configureClient wg rc t).trace = [rc.scheme ++ "://" ++ rc.host ++ rc.path] := by
  refine ⟨?_, ?_, ?_, (configureClient_summary wg rc t).2.1⟩
  · intro e hd
    rw [configureClient_dial_fails wg rc t e hd]
    exact ⟨rfl, rfl⟩
  · intro e hd hw
    rw [configureClient_write_fails wg rc t e hd hw]
    exact ⟨rfl, rfl⟩
  · intro e hd hw hr
    rw [configureClient_read_fails wg rc t e hd hw hr]
    exact ⟨rfl, rfl⟩

/-- Witness of C6: a failing dial, a failing write and a failing read. -/
theorem failure_is_terminal_witness :
    logs (configureClient ⟨1⟩ (rcWith Props.zero) tDialFails).trace =
      ["can not connect: dial tcp: refused\n"] ∧
    transportOps (configureClient ⟨1⟩ (rcWith Props.zero) tWriteFails).trace =
      [.dial "ws:///ws/", .write 1 "OK+OK"] ∧
    transportOps (configureClient ⟨1⟩ (rcWith Props.zero) tReadFails).trace =
      [.dial "ws:///ws/", .write 1 "OK+OK", .read] :=
  ⟨((failure_is_terminal ⟨1⟩ (rcWith Props.zero) tDialFails).1 "dial tcp: refused" rfl).1,
    ((failure_is_terminal ⟨1⟩ (rcWith Props.zero) tWriteFails).2.1 "broken pipe" rfl rfl).2,
    ((failure_is_terminal ⟨1⟩ (rcWith Props.zero) tReadFails).2.2.1 "EOF" rfl rfl rfl).2⟩

/-- C7: when dial, write and read succeed, `configureClient` makes exactly the calls dial,
write of `OK+OK` as a text frame, read, close, in that order; it prints `connected`, the
send confirmation, the receive confirmation with the payload read, then `closed` or a
`can not close` line; the effects are interleaved as the trace shows, the close outcome
changes only that last line, and `wg.Done` is called once, last. -/
theorem success_sequence (wg : WaitGroup) (rc : Retcon) (t : Transport) (msg : String)
    (op : OpCode) (hd : t.dial (rc.scheme ++ "://" ++ rc.host ++ rc.path) = none)
    (hw : t.write OpText "OK+OK" = none) (hr : t.read = .ok (msg, op)) :
    transportOps (configureClient wg rc t).trace =
      [.dial (rc.scheme ++ "://" ++ rc.host ++ rc.path), .write OpText "OK+OK", .read,
        .close] ∧
    logs (configureClient wg rc t).trace =
      ["connected\n", "send: OK+OK, type: " ++ t.showOp OpText ++ "\n",
        "receive: " ++ msg ++ "ï¼Œtype: " ++ t.showOp op ++ "\n",
        match t.close with
        | some err => "can not close: " ++ err ++ "\n"
        | none => "closed\n"] ∧
    (configureClient wg rc t).trace =
      [.dial (rc.scheme ++ "://" ++ rc.host ++ rc.path), .print "connected\n",
        .write OpText "OK+OK", .print ("send: OK+OK, type: " ++ t.showOp OpText ++ "\n"),
        .read, .print ("receive: " ++ msg ++ "ï¼Œtype: " ++ t.showOp op ++ "\n"), .close,
        .print (match t.close with
          | some err => "can not close: " ++ err ++ "\n"
          | none => "closed\n"),
        .wgDone] ∧
    doneCalls (configureClient wg rc t).trace = 1 ∧
    OpText = 1 := by
  rw [configureClient_read_ok wg rc t msg op hd hw hr]
  exact ⟨rfl, rfl, rfl, rfl, rfl⟩

/-- Witness of C7: the server answers `PONG`; once with a close that succeeds, once with a
close that fails. -/
theorem success_sequence_witness :
    logs (configureClient ⟨1⟩ (rcWith Props.zero) tPong).trace =
      ["connected\n", "send: OK+OK, type: 1\n", "receive: PONGï¼Œtype: 1\n", "closed\n"] ∧
    logs (configureClient ⟨1⟩ (rcWith Props.zero) tCloseFails).trace =
      ["connected\n", "send: OK+OK, type: 1\n", "receive: PONGï¼Œtype: 1\n",
        "can not close: already closed\n"] ∧
    transportOps (configureClient ⟨1⟩ (rcWith Props.zero) tCloseFails).trace =
      [.dial "ws:///ws/", .write 1 "OK+OK", .read, .close] :=
  ⟨(success_sequence ⟨1⟩ (rcWith Props.zero) tPong "PONG" 1 rfl rfl rfl).2.1,
    (success_sequence ⟨1⟩ (rcWith Props.zero) tCloseFails "PONG" 1 rfl rfl rfl).2.1,
    (success_sequence ⟨1⟩ (rcWith Props.zero) tCloseFails "PONG" 1 rfl rfl rfl).1⟩

/-- C8 as stated fails: under `k` the string bucket holds an `int`, which is not a
`[]ConfigProp`; `getString` returns absent and does not panic. -/
theorem getString_not_a_slice_is_absent :
    (Props.strings propsNotSlice).Load "k" = (GoAny.other "int", true) ∧
    (∀ l, GoAny.other "int" ≠ GoAny.configProps l) ∧
    getString (rcWith propsNotSlice) "k" = .ok none ∧
    ¬ ∃ e, getString (rcWith propsNotSlice) "k" = .error e := by
  refine ⟨rfl, fun l h => (by cases h), rfl, ?_⟩
  rw [show getString (rcWith propsNotSlice) "k" = .ok none from rfl]
  rintro ⟨e, h⟩
  cases h

/-- C8, amended: for each of the seven accessors, a non-empty stored `[]ConfigProp` whose
first `val` is not of the accessor's kind makes the accessor panic with an interface
conversion error, and a stored value that is not a `[]ConfigProp` makes it return absent
without a panic. -/
theorem accessors_panic_on_wrong_first_val :
    PanicsOnWrongFirstVal getBoolean Props.booleans GoAny.boolPtr "*bool" ∧
    PanicsOnWrongFirstVal getString Props.strings GoAny.stringPtr "*string" ∧
    PanicsOnWrongFirstVal getTimestamp Props.timestamps GoAny.timePtr "*time.Time" ∧
    PanicsOnWrongFirstVal getDuration Props.durations GoAny.durationPtr "*time.Duration" ∧
    PanicsOnWrongFirstVal getNumber Props.numbers GoAny.numberPtr "*json.Number" ∧
    PanicsOnWrongFirstVal getObject Props.objects GoAny.anyPtr "*interface \x7b\x7d" ∧
    PanicsOnWrongFirstVal getSlice Props.slices GoAny.slicePtr "*[]interface \x7b\x7d" :=
  ⟨panicsOnWrong_of_eq getBoolean_eq assertBoolPtr_mismatch,
    panicsOnWrong_of_eq getString_eq assertStringPtr_mismatch,
    panicsOnWrong_of_eq getTimestamp_eq assertTimePtr_mismatch,
    panicsOnWrong_of_eq getDuration_eq assertDurationPtr_mismatch,
    panicsOnWrong_of_eq getNumber_eq assertNumberPtr_mismatch,
    panicsOnWrong_of_eq getObject_eq assertAnyPtr_mismatch,
    panicsOnWrong_of_eq getSlice_eq assertSlicePtr_mismatch⟩

/-- Witness of the amended C8: a `*bool` first in the string bucket makes `getString`
panic; an `int` stored in place of the sequence makes it return absent. -/
theorem accessors_panic_on_wrong_first_val_witness :
    getString (rcWith propsWrongKind) "k" =
      .error (.interfaceConversion "*bool" "*string") ∧
    getString (rcWith propsNotSlice) "k" = .ok none :=
  ⟨(accessors_panic_on_wrong_first_val.2.1 (rcWith propsWrongKind) "k").1
      (.mk 1 "k" 1 "string" false (.boolPtr (some true))) [] rfl
      (fun v h => (by cases h)),
    (accessors_panic_on_wrong_first_val.2.1 (rcWith propsNotSlice) "k").2
      (.other "int") rfl (fun l h => by cases h)⟩

/-- C9 as stated fails: for a configuration defining `host` as `example.com` and `appId` as
`42`, the `Retcon` built by `fromConfig` has host `example.com` and path `/ws/42`, while
`getString` on it returns absent for `host` and for `appId`. -/
theorem fromConfig_string_bucket_is_empty :
    cfgExample.str "host" = "example.com" ∧
    (fromConfig cfgExample tPong).retcon.host = "example.com" ∧
    (fromConfig cfgExample tPong).retcon.path = "/ws/42" ∧
    getString (fromConfig cfgExample tPong).retcon "host" = .ok none ∧
    getString (fromConfig cfgExample tPong).retcon "appId" = .ok none ∧
    getString (fromConfig cfgExample tPong).retcon "host" ≠
      .ok (some (fromConfig cfgExample tPong).retcon.host) := by
  refine ⟨by decide, by decide, by decide, rfl, rfl, ?_⟩
  rw [show getString (fromConfig cfgExample tPong).retcon "host" = .ok none from rfl]
  intro h
  cases h

/-- C9, amended: the host and the path of the `Retcon` built by `fromConfig` are read from
the koanf configuration, `config.String("host")` and `/ws/` followed by
`config.String("appId")`; its registry is empty, so `getString` returns absent for every
name. -/
theorem fromConfig_target_from_koanf (config : Koanf) (t : Transport) :
    (fromConfig config t).retcon.host = config.str "host" ∧
    (fromConfig config t).retcon.path = "/ws/" ++ config.str "appId" ∧
    ∀ name, getString (fromConfig config t).retcon name = .ok none :=
  ⟨rfl, rfl, fun _ => rfl⟩

/-- C10 fails on the code: for every configuration and every transport, the `wg.Done` of
`configureClient` runs on the fresh wait group of `fromConfig`, whose counter is 0; the
counter becomes -1 and `fromConfig` ends in the negative-counter panic; that `wg.Done` is
its last effect, so `go retcon.wg.Wait()` and the return are not reached. -/
theorem fromConfig_panics (config : Koanf) (t : Transport) :
    (fromConfig config t).panic = some Panic.negativeWaitGroupCounter ∧
    (fromConfig config t).wg.counter = -1 ∧
    doneCalls (fromConfig config t).trace = 1 ∧
    (fromConfig config t).trace.getLast? = some Event.wgDone := by
  rw [fromConfig_eq]
  exact ⟨rfl, rfl, (configureClient_summary ⟨0⟩ _ t).1, (configureClient_summary ⟨0⟩ _ t).2.2⟩

end RetconClient
